import Mathlib

/-!
# Verification of the student-portfolio data-load-and-render pipeline

A shallow embedding of `src/js/main.js`.  The page's DOM surface is modelled
explicitly: each named container is an `Option (List String)` — `none` when the
element is absent from the page, `some children` otherwise, where `children` is
the list of top-level child elements of the container.  Every card template in
the source has a single root element, so the assignment
`container.innerHTML = arr.map(card).join('')` is modelled as setting the
container's child list to `arr.map card` (with the running index where the
source uses `(x, index) =>`).

JavaScript string-or-undefined fields are modelled as `Option String`
(`none` = the field is absent, i.e. `undefined`); interpolation of an absent
field would print `"undefined"`, and truthiness of a string field is
"present and non-empty".  Code paths that throw a `TypeError` are modelled
with `Option`/explicit outcome types.
-/

namespace Portfolio

/-! ## List helper: `map` with the running index, as in `arr.map((x, index) => ...)` -/

def mapWithIndexFrom (f : Nat → α → β) (k : Nat) : List α → List β
  | [] => []
  | a :: as => f k a :: mapWithIndexFrom f (k + 1) as

def mapWithIndex (f : Nat → α → β) (l : List α) : List β :=
  mapWithIndexFrom f 0 l

theorem length_mapWithIndexFrom (f : Nat → α → β) :
    ∀ (l : List α) (k : Nat), (mapWithIndexFrom f k l).length = l.length := by
  intro l
  induction l with
  | nil => intro k; rfl
  | cons a as ih => intro k; simpa [mapWithIndexFrom] using ih (k + 1)

theorem get_mapWithIndexFrom (f : Nat → α → β) :
    ∀ (l : List α) (k i : Nat) (hi : i < l.length)
      (hj : i < (mapWithIndexFrom f k l).length),
      (mapWithIndexFrom f k l).get ⟨i, hj⟩ = f (k + i) (l.get ⟨i, hi⟩) := by
  intro l
  induction l with
  | nil => intro k i hi _; exact absurd hi (Nat.not_lt_zero i)
  | cons a as ih =>
    intro k i hi hj
    cases i with
    | zero => rfl
    | succ n =>
      have h1 : n < as.length := Nat.lt_of_succ_lt_succ hi
      have h2 : n < (mapWithIndexFrom f (k + 1) as).length := by
        rw [length_mapWithIndexFrom]; exact h1
      have := ih (k + 1) n h1 h2
      simpa [mapWithIndexFrom, Nat.add_assoc, Nat.add_comm 1 n] using this

theorem length_mapWithIndex (f : Nat → α → β) (l : List α) :
    (mapWithIndex f l).length = l.length :=
  length_mapWithIndexFrom f l 0

theorem get_mapWithIndex (f : Nat → α → β) (l : List α) (i : Nat)
    (hi : i < l.length) (hj : i < (mapWithIndex f l).length) :
    (mapWithIndex f l).get ⟨i, hj⟩ = f i (l.get ⟨i, hi⟩) := by
  have := get_mapWithIndexFrom f l 0 i hi hj
  simpa [mapWithIndex] using this

theorem get_map_list (f : α → β) :
    ∀ (l : List α) (i : Nat) (hi : i < l.length) (hj : i < (l.map f).length),
      (l.map f).get ⟨i, hj⟩ = f (l.get ⟨i, hi⟩) := by
  intro l
  induction l with
  | nil => intro i hi _; exact absurd hi (Nat.not_lt_zero i)
  | cons a as ih =>
    intro i hi hj
    cases i with
    | zero => rfl
    | succ n => exact ih n (Nat.lt_of_succ_lt_succ hi) (by simpa using Nat.lt_of_succ_lt_succ hj)

/-! ## Data model (§3 of the spec, shapes as consumed by `main.js`) -/

structure Lab where
  title : String
  link : String
deriving DecidableEq, Repr

structure Semester where
  title : String
  labs : List Lab
deriving DecidableEq, Repr

structure EducationModule where
  title : String
  semesters : List Semester
deriving DecidableEq, Repr

/-- The thesis document.  Fields are `Option` because the module-level default
is the empty object `{}`, whose fields are all `undefined`. -/
structure Thesis where
  title : Option String
  topic : Option String
  description : Option String
  keyFeatures : Option (List String)
  link : Option String
deriving DecidableEq, Repr

structure Coursework where
  title : String
  semester : String
  description : String
  technologies : List String
  link : String
deriving DecidableEq, Repr

structure PracticalWork where
  title : String
  semester : String
  description : String
  items : List String
  link : String
deriving DecidableEq, Repr

/-- Models `let thesisData = {}` — the empty-object default of the thesis slot. -/
def emptyThesis : Thesis := ⟨none, none, none, none, none⟩

/-- JS template interpolation of a string-or-undefined value. -/
def jsStr : Option String → String
  | some s => s
  | none => "undefined"

/-- JS truthiness of a string-or-undefined value (`!thesisData.title`):
`undefined` and `""` are falsy, every other string is truthy. -/
def titleTruthy : Option String → Bool
  | none => false
  | some s => s ≠ ""

/-! ## DOM model: the four named containers used by the render functions -/

/-- The containers `educationModules`, `thesisContent`, `courseworksList`,
`practicalsList`.  `none` = `document.getElementById` returns `null`;
`some children` = present, holding the listed top-level child elements. -/
structure Page where
  educationModulesContainer : Option (List String)
  thesisContainer : Option (List String)
  courseworksContainer : Option (List String)
  practicalsContainer : Option (List String)
deriving DecidableEq, Repr

/-! ## Card templates (the template literals of `main.js`, whitespace-normalised) -/

def labItemHTML (lab : Lab) : String :=
  "<div class=\"lab-item\"><a href=\"" ++ lab.link ++
    "\" target=\"_blank\"><i class=\"fas fa-flask\"></i> " ++ lab.title ++
    "</a><i class=\"fas fa-external-link-alt\"></i></div>"

def semesterHTML (semester : Semester) : String :=
  "<div class=\"semester-section\"><div class=\"semester-title\"><i class=\"fas fa-calendar-alt\"></i> " ++
    semester.title ++ "</div><div class=\"labs-list\">" ++
    String.join (semester.labs.map labItemHTML) ++ "</div></div>"

def moduleCardHTML (index : Nat) (module : EducationModule) : String :=
  "<div class=\"module-card\" data-aos=\"fade-up\" data-aos-delay=\"" ++ toString (index * 100) ++
    "\"><div class=\"module-header\" onclick=\"toggleModule(" ++ toString index ++
    ")\"><div class=\"module-title\"><span>📚 " ++ module.title ++
    "</span><span class=\"module-toggle\"><i class=\"fas fa-chevron-down\" id=\"module-icon-" ++
    toString index ++ "\"></i></span></div></div><div class=\"module-content\" id=\"module-content-" ++
    toString index ++ "\" style=\"display: none;\">" ++
    String.join (module.semesters.map semesterHTML) ++ "</div></div>"

def featureLI (feature : String) : String :=
  "<li><i class=\"fas fa-check-circle\"></i> " ++ feature ++ "</li>"

def thesisCardHTML (thesisData : Thesis) (keyFeatures : List String) : String :=
  "<div class=\"thesis-card\" data-aos=\"fade-up\"><div class=\"thesis-info\"><h3>" ++
    jsStr thesisData.title ++
    "</h3><p class=\"thesis-topic\"><i class=\"fas fa-graduation-cap\"></i> " ++
    jsStr thesisData.topic ++ "</p><p class=\"thesis-description\">" ++
    jsStr thesisData.description ++
    "</p><div class=\"thesis-features\"><h4>Основные разделы:</h4><ul>" ++
    String.join (keyFeatures.map featureLI) ++ "</ul></div><a href=\"" ++
    jsStr thesisData.link ++
    "\" class=\"thesis-link\" target=\"_blank\"><i class=\"fas fa-file-alt\"></i> Открыть работу</a></div></div>"

def techTagHTML (tech : String) : String :=
  "<span class=\"tech-tag\">" ++ tech ++ "</span>"

def courseworkCardHTML (index : Nat) (work : Coursework) : String :=
  "<div class=\"work-card\" data-aos=\"fade-up\" data-aos-delay=\"" ++ toString (index * 100) ++
    "\"><div class=\"work-header\"><h3 class=\"work-title\">" ++ work.title ++
    "</h3><span class=\"work-semester\"><i class=\"fas fa-calendar\"></i> " ++ work.semester ++
    "</span></div><p class=\"work-description\">" ++ work.description ++
    "</p><div class=\"work-technologies\"><strong>Технологии:</strong><div class=\"tech-tags\">" ++
    String.join (work.technologies.map techTagHTML) ++
    "</div></div><a href=\"" ++ work.link ++
    "\" class=\"work-link\" target=\"_blank\">Подробнее <i class=\"fas fa-arrow-right\"></i></a></div>"

def itemEntryHTML (item : String) : String :=
  "<div class=\"item-entry\"><i class=\"fas fa-code\"></i> " ++ item ++ "</div>"

def practicalCardHTML (index : Nat) (work : PracticalWork) : String :=
  "<div class=\"work-card\" data-aos=\"fade-up\" data-aos-delay=\"" ++ toString (index * 100) ++
    "\"><div class=\"work-header\"><h3 class=\"work-title\">" ++ work.title ++
    "</h3><span class=\"work-semester\"><i class=\"fas fa-calendar\"></i> " ++ work.semester ++
    "</span></div><p class=\"work-description\">" ++ work.description ++
    "</p><div class=\"work-items\"><strong>Работы:</strong><div class=\"items-list\">" ++
    String.join (work.items.map itemEntryHTML) ++
    "</div></div><a href=\"" ++ work.link ++
    "\" class=\"work-link\" target=\"_blank\">Открыть все работы <i class=\"fas fa-arrow-right\"></i></a></div>"

/-! ## Render functions (`main.js` lines 147–280) -/

/-- Function `renderEducationModules` (lines 147–184):
`if (!container || !educationModules.length) return;` then
`container.innerHTML = educationModules.map((module, index) => ...).join('')`. -/
def renderEducationModules (educationModules : List EducationModule) (page : Page) : Page :=
  match page.educationModulesContainer with
  | none => page
  | some _ =>
    if educationModules.length = 0 then page
    else { page with
            educationModulesContainer := some (mapWithIndex moduleCardHTML educationModules) }

/-- Function `renderThesis` (lines 186–217):
`if (!container || !thesisData.title) return;` then assigns a single thesis
card.  The template evaluates `thesisData.keyFeatures.map(...)` before the
assignment, so when `keyFeatures` is `undefined` the function throws a
`TypeError` (`none` result) and the container is left unchanged. -/
def renderThesis (thesisData : Thesis) (page : Page) : Option Page :=
  match page.thesisContainer with
  | none => some page
  | some _ =>
    if titleTruthy thesisData.title then
      match thesisData.keyFeatures with
      | none => none
      | some fs => some { page with thesisContainer := some [thesisCardHTML thesisData fs] }
    else some page

/-- Function `renderCourseworks` (lines 219–247). -/
def renderCourseworks (courseworks : List Coursework) (page : Page) : Page :=
  match page.courseworksContainer with
  | none => page
  | some _ =>
    if courseworks.length = 0 then page
    else { page with courseworksContainer := some (mapWithIndex courseworkCardHTML courseworks) }

/-- Function `renderPracticalWorks` (lines 249–280). -/
def renderPracticalWorks (practicalWorks : List PracticalWork) (page : Page) : Page :=
  match page.practicalsContainer with
  | none => page
  | some _ =>
    if practicalWorks.length = 0 then page
    else { page with practicalsContainer := some (mapWithIndex practicalCardHTML practicalWorks) }

/-! ## Data fetch layer (`loadAllData`, lines 112–144)

Each of the four `await fetch(...)`/`response.json()` pairs is modelled by the
outcome of that source: the transport can fail (`fetch` rejects), the response
can carry a non-success status (`response.ok` false), the body can fail to
parse (`response.json()` rejects), or parsing can succeed with a typed payload.
The whole batch runs sequentially inside one `try`; a thrown error jumps to the
single `catch`, which only logs. -/

inductive FetchResult (α : Type) where
  | transportError : FetchResult α
  | httpNotOk : FetchResult α
  | parseError : FetchResult α
  | ok : α → FetchResult α
deriving DecidableEq, Repr

/-- Does this outcome make the `await` throw (reaching the `catch`)? -/
def FetchResult.raises : FetchResult α → Bool
  | .transportError => true
  | .parseError => true
  | _ => false

def FetchResult.isParseError : FetchResult α → Bool
  | .parseError => true
  | _ => false

def FetchResult.isHttpNotOk : FetchResult α → Bool
  | .httpNotOk => true
  | _ => false

def FetchResult.isOk : FetchResult α → Bool
  | .ok _ => true
  | _ => false

/-- The outcomes of the four sources, in the fixed order of `loadAllData`:
education modules, thesis, courseworks, practical works. -/
structure FetchEnv where
  modulesResponse : FetchResult (List EducationModule)
  thesisResponse : FetchResult Thesis
  courseworksResponse : FetchResult (List Coursework)
  practicalResponse : FetchResult (List PracticalWork)
deriving DecidableEq, Repr

/-- Observable trace of one `loadAllData` run: the four module-level data
slots, the page, and per source whether a fetch was issued and whether the
render function was invoked. -/
structure LoadTrace where
  educationModules : List EducationModule
  thesisData : Thesis
  courseworks : List Coursework
  practicalWorks : List PracticalWork
  page : Page
  fetchedModules : Bool
  fetchedThesis : Bool
  fetchedCourseworks : Bool
  fetchedPracticals : Bool
  renderedModules : Bool
  renderedThesis : Bool
  renderedCourseworks : Bool
  renderedPracticals : Bool
deriving DecidableEq, Repr

/-- The state at the top of `loadAllData`: default slots, nothing fetched. -/
def initTrace (page : Page) : LoadTrace :=
  { educationModules := []
    thesisData := emptyThesis
    courseworks := []
    practicalWorks := []
    page := page
    fetchedModules := false
    fetchedThesis := false
    fetchedCourseworks := false
    fetchedPracticals := false
    renderedModules := false
    renderedThesis := false
    renderedCourseworks := false
    renderedPracticals := false }

/-- Education-modules block of `loadAllData` (lines 114–119).  `.error st`
means an exception escaped this block with observable state `st` (caught by the
single `catch`); `.ok st` means execution continues with the next source. -/
def loadModulesStep (r : FetchResult (List EducationModule)) (st : LoadTrace) :
    Except LoadTrace LoadTrace :=
  let st := { st with fetchedModules := true }
  match r with
  | .transportError => .error st
  | .httpNotOk => .ok st
  | .parseError => .error st
  | .ok d =>
      .ok { st with educationModules := d
                    page := renderEducationModules d st.page
                    renderedModules := true }

/-- Thesis block of `loadAllData` (lines 121–126).  `renderThesis` itself can
throw (see `renderThesis`); that exception also reaches the `catch`. -/
def loadThesisStep (r : FetchResult Thesis) (st : LoadTrace) :
    Except LoadTrace LoadTrace :=
  let st := { st with fetchedThesis := true }
  match r with
  | .transportError => .error st
  | .httpNotOk => .ok st
  | .parseError => .error st
  | .ok d =>
      let st := { st with thesisData := d, renderedThesis := true }
      match renderThesis d st.page with
      | none => .error st
      | some p => .ok { st with page := p }

/-- Courseworks block of `loadAllData` (lines 128–133). -/
def loadCourseworksStep (r : FetchResult (List Coursework)) (st : LoadTrace) :
    Except LoadTrace LoadTrace :=
  let st := { st with fetchedCourseworks := true }
  match r with
  | .transportError => .error st
  | .httpNotOk => .ok st
  | .parseError => .error st
  | .ok d =>
      .ok { st with courseworks := d
                    page := renderCourseworks d st.page
                    renderedCourseworks := true }

/-- Practical-works block of `loadAllData` (lines 135–140). -/
def loadPracticalStep (r : FetchResult (List PracticalWork)) (st : LoadTrace) :
    Except LoadTrace LoadTrace :=
  let st := { st with fetchedPracticals := true }
  match r with
  | .transportError => .error st
  | .httpNotOk => .ok st
  | .parseError => .error st
  | .ok d =>
      .ok { st with practicalWorks := d
                    page := renderPracticalWorks d st.page
                    renderedPracticals := true }

/-- Function `loadAllData` (lines 112–144): the four blocks run sequentially inside one
`try`; the first thrown error aborts the rest of the batch (the `catch` only
logs, so the observable state is whatever had been done up to the throw). -/
def loadAllData (env : FetchEnv) (page : Page) : LoadTrace :=
  match loadModulesStep env.modulesResponse (initTrace page) with
  | .error st => st
  | .ok st =>
    match loadThesisStep env.thesisResponse st with
    | .error st => st
    | .ok st =>
      match loadCourseworksStep env.courseworksResponse st with
      | .error st => st
      | .ok st =>
        match loadPracticalStep env.practicalResponse st with
        | .error st => st
        | .ok st => st

/-! Source-indexed views of a run, in the fixed order
0 = education modules, 1 = thesis, 2 = courseworks, 3 = practical works. -/

def throwsAt (env : FetchEnv) : Nat → Bool
  | 0 => env.modulesResponse.raises
  | 1 => env.thesisResponse.raises
  | 2 => env.courseworksResponse.raises
  | 3 => env.practicalResponse.raises
  | _ => false

def parseErrorAt (env : FetchEnv) : Nat → Bool
  | 0 => env.modulesResponse.isParseError
  | 1 => env.thesisResponse.isParseError
  | 2 => env.courseworksResponse.isParseError
  | 3 => env.practicalResponse.isParseError
  | _ => false

def httpNotOkAt (env : FetchEnv) : Nat → Bool
  | 0 => env.modulesResponse.isHttpNotOk
  | 1 => env.thesisResponse.isHttpNotOk
  | 2 => env.courseworksResponse.isHttpNotOk
  | 3 => env.practicalResponse.isHttpNotOk
  | _ => false

def okAt (env : FetchEnv) : Nat → Bool
  | 0 => env.modulesResponse.isOk
  | 1 => env.thesisResponse.isOk
  | 2 => env.courseworksResponse.isOk
  | 3 => env.practicalResponse.isOk
  | _ => false

def fetchedAt (st : LoadTrace) : Nat → Bool
  | 0 => st.fetchedModules
  | 1 => st.fetchedThesis
  | 2 => st.fetchedCourseworks
  | 3 => st.fetchedPracticals
  | _ => false

def renderedAt (st : LoadTrace) : Nat → Bool
  | 0 => st.renderedModules
  | 1 => st.renderedThesis
  | 2 => st.renderedCourseworks
  | 3 => st.renderedPracticals
  | _ => false

/-- The data slot of source `i` still holds its module-level default. -/
def slotDefaultAt (st : LoadTrace) : Nat → Prop
  | 0 => st.educationModules = []
  | 1 => st.thesisData = emptyThesis
  | 2 => st.courseworks = []
  | 3 => st.practicalWorks = []
  | _ => True

/-- The data slot of source `i` holds exactly the payload parsed from `env`. -/
def storedAt (env : FetchEnv) (st : LoadTrace) : Nat → Prop
  | 0 => ∀ d, env.modulesResponse = .ok d → st.educationModules = d
  | 1 => ∀ d, env.thesisResponse = .ok d → st.thesisData = d
  | 2 => ∀ d, env.courseworksResponse = .ok d → st.courseworks = d
  | 3 => ∀ d, env.practicalResponse = .ok d → st.practicalWorks = d
  | _ => True

/-- A thesis payload on which `renderThesis` cannot throw: whenever the title
is truthy the `keyFeatures` field is present. -/
def thesisRenders (t : Thesis) : Prop :=
  titleTruthy t.title = true → t.keyFeatures.isSome = true

/-! ## Interaction controller -/

/-- Models `classList.add`: appends the class if not already present. -/
def classAdd (c : String) (cs : List String) : List String :=
  if c ∈ cs then cs else cs ++ [c]

/-- Models `classList.remove`: removes every occurrence of the class. -/
def classRemove (c : String) (cs : List String) : List String :=
  cs.filter (fun x => x ≠ c)

/-- The inline presentation state of one rendered module entry:
`module-content-<i>`'s `style.display` and `module-icon-<i>`'s
`style.transform`, each `none` when the element is absent from the page. -/
structure ModuleEntryDOM where
  contentDisplay : Option String
  iconTransform : Option String
deriving DecidableEq, Repr

/-- Function `toggleModule` (lines 338–351): guarded on both elements existing, then
branches on `content.style.display === 'none'`. -/
def toggleModule (e : ModuleEntryDOM) : ModuleEntryDOM :=
  match e.contentDisplay, e.iconTransform with
  | some d, some _ =>
    if d = "none" then
      { contentDisplay := some "block", iconTransform := some "rotate(180deg)" }
    else
      { contentDisplay := some "none", iconTransform := some "rotate(0deg)" }
  | _, _ => e

/-- The freshly rendered state of a module entry: the content div carries
`style="display: none;"` from the template and the icon has no inline
transform. -/
def freshModuleEntry : ModuleEntryDOM :=
  { contentDisplay := some "none", iconTransform := some "" }

/-- Is the entry's content hidden (`display === 'none'`)? -/
def entryHidden (e : ModuleEntryDOM) : Bool :=
  e.contentDisplay = some "none"

/-! ### Navigation (`initNavigation`, lines 283–316) -/

/-- Outcome of running the click handler attached to a `.nav-link` element
(lines 298–303): either it throws a `TypeError` part-way (carrying the class
lists as they stand at the throw) or it completes. -/
inductive ClickOutcome where
  | thrown : Option (List String) → Option (List String) → ClickOutcome
  | completed : Option (List String) → Option (List String) → ClickOutcome
deriving DecidableEq, Repr

def ClickOutcome.raises : ClickOutcome → Bool
  | .thrown _ _ => true
  | .completed _ _ => false

/-- The `.nav-link` click handler: `navToggle.classList.remove('active');
navMenu.classList.remove('active');` — no null guard on either element. -/
def navLinkClick (navToggle navMenu : Option (List String)) : ClickOutcome :=
  match navToggle with
  | none => .thrown none navMenu
  | some t =>
    let t := classRemove "active" t
    match navMenu with
    | none => .thrown (some t) none
    | some m => .completed (some t) (some (classRemove "active" m))

/-- The mobile-menu toggle wiring (lines 290–295) is guarded:
`if (navToggle && navMenu)` — the listener is attached only when both exist. -/
def menuToggleWired (navToggle navMenu : Option (List String)) : Bool :=
  navToggle.isSome && navMenu.isSome

/-! ### Active-link tracking (`updateActiveNavLink`, lines 318–335) -/

structure PageSection where
  id : String
  offsetTop : Int
  offsetHeight : Int
deriving DecidableEq, Repr

structure NavLink where
  href : String
  active : Bool
deriving DecidableEq, Repr

/-- The test of lines 324/328: with `sectionTop = section.offsetTop - 100`,
`scrollY > sectionTop && scrollY <= sectionTop + sectionHeight`. -/
def sectionMatches (scrollY : Int) (s : PageSection) : Bool :=
  decide (s.offsetTop - 100 < scrollY) && decide (scrollY ≤ s.offsetTop - 100 + s.offsetHeight)

/-- The band `[top_i, top_i + height_i)` as written in the spec, with
`top_i = offsetTop - 100` (the adjusted top the code derives). -/
def specBandMem (scrollY : Int) (s : PageSection) : Bool :=
  decide (s.offsetTop - 100 ≤ scrollY) && decide (scrollY < s.offsetTop - 100 + s.offsetHeight)

/-- Models `document.querySelectorAll('.nav-link').forEach(link => link.classList.remove('active'))`. -/
def clearActive (links : List NavLink) : List NavLink :=
  links.map fun l => { l with active := false }

/-- Models `document.querySelector` followed by `classList.add`: the query returns the first match; `classList.add('active')`
on it. -/
def setActiveFirst (id : String) : List NavLink → List NavLink
  | [] => []
  | l :: ls =>
    if l.href = id then { l with active := true } :: ls
    else l :: setActiveFirst id ls

/-- Function `updateActiveNavLink`: iterate the sections in document order; every
matching section clears all links and marks its own. -/
def updateActiveNavLink (sections : List PageSection) (scrollY : Int)
    (links : List NavLink) : List NavLink :=
  sections.foldl
    (fun ls s => if sectionMatches scrollY s then setActiveFirst s.id (clearActive ls) else ls)
    links

/-- The last section (in document order) whose band test matches. -/
def lastMatch (sections : List PageSection) (scrollY : Int) : Option PageSection :=
  (sections.filter (sectionMatches scrollY)).getLast?

def activeCount (links : List NavLink) : Nat :=
  (links.filter (fun l => l.active)).length

/-! ### Counter animation (`initCounters`, lines 374–411) -/

/-- Displayed value of a `.stat-number` element after `n` executions of
`updateCount`, starting from a displayed `0`, for a given `data-count` target:
`if (count < target) counter.innerText = Math.ceil(count + target / 200)`
(another step is scheduled) `else counter.innerText = target` (the chain
stops; further indices simply keep the final value). -/
def counterSeq (target : Nat) : Nat → Int
  | 0 => 0
  | n + 1 =>
    let count := counterSeq target n
    if count < (target : Int) then ⌈(count : ℚ) + (target : ℚ) / 200⌉ else (target : Int)

/-- One `.stat-number` element as seen by the one-shot `IntersectionObserver`:
whether it is still observed, and how many times `animateCounter` has been
started on it. -/
structure CounterElem where
  observed : Bool
  started : Nat
deriving DecidableEq, Repr

/-- The observer callback (lines 399–406): it fires only for still-observed
targets; on intersection it starts the animation and unobserves the target. -/
def observerCallback (isIntersecting : Bool) (e : CounterElem) : CounterElem :=
  if e.observed && isIntersecting then { observed := false, started := e.started + 1 } else e

/-- A whole sequence of intersection events delivered to one element. -/
def runObserverEvents (events : List Bool) (e : CounterElem) : CounterElem :=
  events.foldl (fun e b => observerCallback b e) e

/-! ### Back-to-top (`initBackToTop`, lines 414–433) -/

/-- The scroll listener attached when the button exists:
`if (window.scrollY > 500) classList.add('visible') else classList.remove('visible')`. -/
def backToTopScrollHandler (scrollY : Int) (classes : List String) : List String :=
  if 500 < scrollY then classAdd "visible" classes else classRemove "visible" classes

/-! ## Concrete pages and documents used to instantiate the theorems -/

/-- A page on which none of the four containers exists. -/
def noPage : Page := ⟨none, none, none, none⟩

/-- A page on which all four containers exist and are empty. -/
def demoPage : Page := ⟨some [], some [], some [], some []⟩

def demoModules : List EducationModule :=
  [⟨"Programming", [⟨"Semester 1", [⟨"Lab 1", "lab1.html"⟩]⟩]⟩]

def demoThesisDoc : Thesis :=
  { title := some "Diploma thesis"
    topic := some "Web portfolio"
    description := some "A study"
    keyFeatures := some ["Chapter 1", "Chapter 2"]
    link := some "thesis.html" }

/-- A thesis whose `title` is present but empty (falsy) while every other
field is present. -/
def falsyTitleThesis : Thesis :=
  { title := some ""
    topic := some "Web portfolio"
    description := some "A study"
    keyFeatures := some ["Chapter 1"]
    link := some "thesis.html" }

def demoWorks : List Coursework :=
  [⟨"Coursework 1", "3", "d", ["Python"], "cw.html"⟩]

def demoPracs : List PracticalWork :=
  [⟨"Practicals 1", "2", "d", ["Work 1"], "pw.html"⟩]

/-! ## C2 — render functions are no-ops on absent container or empty data -/

/-- C2: for every render function, if the target container is absent from the
page or the corresponding data slot is empty/unset, the function performs no
mutation: the page (all four containers) is returned unchanged (and, for the
thesis, no exception is thrown). -/
theorem render_functions_noop (educationModules : List EducationModule)
    (thesisData : Thesis) (courseworks : List Coursework)
    (practicalWorks : List PracticalWork) (page : Page) :
    (page.educationModulesContainer = none →
      renderEducationModules educationModules page = page) ∧
    (educationModules = [] → renderEducationModules educationModules page = page) ∧
    (page.thesisContainer = none → renderThesis thesisData page = some page) ∧
    (thesisData = emptyThesis → renderThesis thesisData page = some page) ∧
    (page.courseworksContainer = none → renderCourseworks courseworks page = page) ∧
    (courseworks = [] → renderCourseworks courseworks page = page) ∧
    (page.practicalsContainer = none →
      renderPracticalWorks practicalWorks page = page) ∧
    (practicalWorks = [] → renderPracticalWorks practicalWorks page = page) := by
  refine ⟨?_, ?_, ?_, ?_, ?_, ?_, ?_, ?_⟩
  · intro h; simp [renderEducationModules, h]
  · intro h; subst h
    cases hc : page.educationModulesContainer <;> simp [renderEducationModules, hc]
  · intro h; simp [renderThesis, h]
  · intro h; subst h
    cases hc : page.thesisContainer <;> simp [renderThesis, hc, titleTruthy, emptyThesis]
  · intro h; simp [renderCourseworks, h]
  · intro h; subst h
    cases hc : page.courseworksContainer <;> simp [renderCourseworks, hc]
  · intro h; simp [renderPracticalWorks, h]
  · intro h; subst h
    cases hc : page.practicalsContainer <;> simp [renderPracticalWorks, hc]

/-- Witness for C2: on a page without any of the containers, all four render
functions leave the page untouched even with non-empty data. -/
theorem render_functions_noop_witness :
    renderEducationModules demoModules noPage = noPage ∧
    renderThesis demoThesisDoc noPage = some noPage ∧
    renderCourseworks demoWorks noPage = noPage ∧
    renderPracticalWorks demoPracs noPage = noPage :=
  ⟨(render_functions_noop demoModules demoThesisDoc demoWorks demoPracs noPage).1 rfl,
   (render_functions_noop demoModules demoThesisDoc demoWorks demoPracs noPage).2.2.1 rfl,
   (render_functions_noop demoModules demoThesisDoc demoWorks demoPracs noPage).2.2.2.2.1 rfl,
   (render_functions_noop demoModules demoThesisDoc demoWorks demoPracs noPage).2.2.2.2.2.2.1 rfl⟩

/-! ## C10 — the thesis renders iff its title is truthy -/

/-- C10: `renderThesis` decides presence of the thesis document by the
truthiness of its `title` field alone: whenever the title is absent, empty or
otherwise falsy, the function performs no mutation (and throws nothing), no
matter which other fields are present. -/
theorem renderThesis_gated_on_title (thesisData : Thesis) (page : Page)
    (h : titleTruthy thesisData.title = false) :
    renderThesis thesisData page = some page := by
  cases hc : page.thesisContainer <;> simp [renderThesis, hc, h]

/-- Witness for C10: a thesis with empty title but with topic, description,
keyFeatures and link all present is not rendered even into a present container. -/
theorem renderThesis_gated_on_title_witness :
    titleTruthy falsyTitleThesis.title = false ∧
    falsyTitleThesis.keyFeatures.isSome = true ∧
    renderThesis falsyTitleThesis demoPage = some demoPage :=
  ⟨by decide, by decide,
   renderThesis_gated_on_title falsyTitleThesis demoPage (by decide)⟩

/-! ## C8 — back-to-top visibility threshold -/

/-- C8: after a scroll event, the back-to-top button carries the `visible`
class if and only if the scroll offset is strictly greater than 500 — in
particular it is hidden at exactly 500 or below, whatever classes the button
carried before. -/
theorem backToTop_visibility_threshold (scrollY : Int) (classes : List String) :
    ("visible" ∈ backToTopScrollHandler scrollY classes) ↔ 500 < scrollY := by
  unfold backToTopScrollHandler
  by_cases h : (500 : Int) < scrollY
  · simp only [if_pos h]
    unfold classAdd
    by_cases hm : "visible" ∈ classes <;> simp [hm, h]
  · simp only [if_neg h]
    simp [classRemove, List.mem_filter, h]

/-! ## C9 — nav-link click handler is unguarded, menu-toggle wiring is guarded -/

/-- C9: the click handler attached to every `.nav-link` element dereferences
`navToggle` without a null guard, so when the `navToggle` element is absent
the handler throws a `TypeError` instead of performing the forced-close no-op;
the mobile-menu toggle wiring, by contrast, is guarded and attaches nothing in
that situation. -/
theorem navLink_click_throws_without_navToggle (navMenu : Option (List String)) :
    (navLinkClick none navMenu).raises = true ∧
    menuToggleWired none navMenu = false :=
  ⟨rfl, rfl⟩

/-! ## C5 — double-toggle and the module entry's presentation state -/

/-- Counterexample to C5 as stated: from the freshly rendered starting state
(content `display: none` from the template, icon with empty inline transform)
two applications of `toggleModule` do not restore the state — the icon's
transform ends at `rotate(0deg)` instead of its original empty value. -/
theorem toggleModule_not_involution_at_fresh_state :
    toggleModule (toggleModule freshModuleEntry) ≠ freshModuleEntry := by decide

/-- C5 (amended): two applications of `toggleModule` always restore the
content's hidden/visible boolean, and three applications equal one (the toggle
is an involution on its own image); the exact `(display, transform)` pair is
restored precisely when the starting state is one the toggle itself produces —
`('none', 'rotate(0deg)')` or `('block', 'rotate(180deg)')` — or when one of
the two elements is missing, in which case the toggle is a no-op. -/
theorem toggleModule_involution_characterised (e : ModuleEntryDOM) :
    toggleModule (toggleModule (toggleModule e)) = toggleModule e ∧
    entryHidden (toggleModule (toggleModule e)) = entryHidden e ∧
    (toggleModule (toggleModule e) = e ↔
      e = ⟨some "none", some "rotate(0deg)"⟩ ∨
      e = ⟨some "block", some "rotate(180deg)"⟩ ∨
      e.contentDisplay = none ∨ e.iconTransform = none) := by
  obtain ⟨cd, it⟩ := e
  cases cd with
  | none =>
    cases it <;> simp [toggleModule, entryHidden]
  | some d =>
    cases it with
    | none => simp [toggleModule, entryHidden]
    | some t =>
      by_cases hd : d = "none"
      · subst hd
        have h1 : toggleModule ⟨some "none", some t⟩
            = ⟨some "block", some "rotate(180deg)"⟩ := by
          simp [toggleModule]
        have h2 : toggleModule ⟨some "block", some "rotate(180deg)"⟩
            = ⟨some "none", some "rotate(0deg)"⟩ := by decide
        have h3 : toggleModule ⟨some "none", some "rotate(0deg)"⟩
            = ⟨some "block", some "rotate(180deg)"⟩ := by decide
        rw [h1, h2, h3]
        refine ⟨rfl, by simp [entryHidden], ?_⟩
        constructor
        · intro h
          exact Or.inl h.symm
        · rintro (h | h | h | h)
          · exact h.symm
          · exact absurd (Option.some.inj (congrArg ModuleEntryDOM.contentDisplay h))
              (by decide)
          · exact Option.noConfusion h
          · exact Option.noConfusion h
      · have h1 : toggleModule ⟨some d, some t⟩
            = ⟨some "none", some "rotate(0deg)"⟩ := by
          simp [toggleModule, hd]
        have h2 : toggleModule ⟨some "none", some "rotate(0deg)"⟩
            = ⟨some "block", some "rotate(180deg)"⟩ := by decide
        have h3 : toggleModule ⟨some "block", some "rotate(180deg)"⟩
            = ⟨some "none", some "rotate(0deg)"⟩ := by decide
        rw [h1, h2, h3]
        refine ⟨rfl, by simp [entryHidden, hd], ?_⟩
        constructor
        · intro h
          exact Or.inr (Or.inl h.symm)
        · rintro (h | h | h | h)
          · exact absurd (Option.some.inj (congrArg ModuleEntryDOM.contentDisplay h)) hd
          · exact h.symm
          · exact Option.noConfusion h
          · exact Option.noConfusion h

/-! ## C6 — counter animation for target 80 -/

theorem ceil_add_eighty_div_twohundred (z : Int) :
    ⌈(z : ℚ) + (80 : ℚ) / 200⌉ = z + 1 := by
  have hcomm : ((z : ℚ) + (80 : ℚ) / 200) = (80 : ℚ) / 200 + (z : ℚ) := by ring
  have hceil : ⌈((80 : ℚ) / 200)⌉ = 1 := by
    rw [Int.ceil_eq_iff]
    constructor <;> norm_num
  rw [hcomm, Int.ceil_add_int, hceil]
  omega

/-- Closed form of the displayed counter value: after `n` update steps the
counter shows `min n 80`. -/
theorem counterSeq80_eq_min (n : Nat) : counterSeq 80 n = min (n : Int) 80 := by
  induction n with
  | zero => simp [counterSeq]
  | succ n ih =>
    by_cases h : n < 80
    · have hlt : (n : Int) < 80 := by exact_mod_cast h
      have hmin : min (n : Int) 80 = (n : Int) := min_eq_left (le_of_lt hlt)
      have : counterSeq 80 (n + 1) = ⌈((n : Int) : ℚ) + (80 : ℚ) / 200⌉ := by
        simp only [counterSeq, ih, hmin]
        push_cast
        rw [if_pos hlt]
      rw [this, ceil_add_eighty_div_twohundred]
      omega
    · have hge : (80 : Int) ≤ (n : Int) := by exact_mod_cast Nat.le_of_not_lt h
      have hmin : min (n : Int) 80 = 80 := min_eq_right hge
      have : counterSeq 80 (n + 1) = 80 := by
        simp only [counterSeq, ih, hmin]
        rw [if_neg (by omega)]
        norm_num
      rw [this]
      omega

/-- C6: for a counter with `data-count` target 80 starting from displayed 0,
the displayed value strictly increases on every scheduled step, never exceeds
80, and from step 80 on the value is exactly 80 (the chain stops there by
writing the target); moreover the one-shot intersection observer unobserves
the element on first trigger, so no later sequence of intersection events ever
restarts the animation. -/
theorem counter_target80_behaviour :
    (∀ n : Nat, counterSeq 80 n = min (n : Int) 80) ∧
    (∀ n : Nat, n < 80 → counterSeq 80 n < counterSeq 80 (n + 1)) ∧
    (∀ n : Nat, counterSeq 80 n ≤ 80) ∧
    (∀ n : Nat, 80 ≤ n → counterSeq 80 n = 80) ∧
    observerCallback true ⟨true, 0⟩ = ⟨false, 1⟩ ∧
    (∀ events : List Bool, runObserverEvents events ⟨false, 1⟩ = ⟨false, 1⟩) := by
  refine ⟨counterSeq80_eq_min, ?_, ?_, ?_, rfl, ?_⟩
  · intro n h
    rw [counterSeq80_eq_min, counterSeq80_eq_min]
    have : (n : Int) < 80 := by exact_mod_cast h
    omega
  · intro n
    rw [counterSeq80_eq_min]
    omega
  · intro n h
    rw [counterSeq80_eq_min]
    have : (80 : Int) ≤ (n : Int) := by exact_mod_cast h
    omega
  · intro events
    induction events with
    | nil => rfl
    | cons b bs ih =>
      have hstep : observerCallback b ⟨false, 1⟩ = ⟨false, 1⟩ := by
        simp [observerCallback]
      calc runObserverEvents (b :: bs) ⟨false, 1⟩
          = runObserverEvents bs (observerCallback b ⟨false, 1⟩) := rfl
        _ = runObserverEvents bs ⟨false, 1⟩ := by rw [hstep]
        _ = ⟨false, 1⟩ := ih

/-- Witness for C6: concrete instances of the guarded parts — the step from
displayed 0 strictly increases, and step 81 still shows exactly 80. -/
theorem counter_target80_behaviour_witness :
    (0 : Nat) < 80 ∧ counterSeq 80 0 < counterSeq 80 1 ∧
    (80 : Nat) ≤ 81 ∧ counterSeq 80 81 = 80 :=
  ⟨by norm_num, counter_target80_behaviour.2.1 0 (by norm_num),
   by norm_num, counter_target80_behaviour.2.2.2.1 81 (by norm_num)⟩

/-! ## C1 — rendered children count/order equal the source array's -/

/-- C1: for each of the four data categories — education modules, courseworks,
practical works, and the thesis's `keyFeatures` list — given a well-formed
non-empty source document and a present container, the render function assigns
markup whose top-level element count equals the source array's length and
whose element at every index is the card generated from the source element at
that same index (order preserved). -/
theorem render_children_match_source
    (educationModules : List EducationModule) (thesisData : Thesis)
    (fs : List String) (courseworks : List Coursework)
    (practicalWorks : List PracticalWork) (page : Page)
    (hm : educationModules ≠ [])
    (hmc : page.educationModulesContainer.isSome = true)
    (ht : titleTruthy thesisData.title = true)
    (hfs : thesisData.keyFeatures = some fs)
    (htc : page.thesisContainer.isSome = true)
    (hw : courseworks ≠ []) (hwc : page.courseworksContainer.isSome = true)
    (hp : practicalWorks ≠ []) (hpc : page.practicalsContainer.isSome = true) :
    ((renderEducationModules educationModules page).educationModulesContainer
        = some (mapWithIndex moduleCardHTML educationModules) ∧
      (mapWithIndex moduleCardHTML educationModules).length
        = educationModules.length ∧
      ∀ i (hi : i < educationModules.length)
        (hj : i < (mapWithIndex moduleCardHTML educationModules).length),
        (mapWithIndex moduleCardHTML educationModules).get ⟨i, hj⟩
          = moduleCardHTML i (educationModules.get ⟨i, hi⟩)) ∧
    (renderThesis thesisData page
        = some { page with thesisContainer := some [thesisCardHTML thesisData fs] } ∧
      (fs.map featureLI).length = fs.length ∧
      ∀ i (hi : i < fs.length) (hj : i < (fs.map featureLI).length),
        (fs.map featureLI).get ⟨i, hj⟩ = featureLI (fs.get ⟨i, hi⟩)) ∧
    ((renderCourseworks courseworks page).courseworksContainer
        = some (mapWithIndex courseworkCardHTML courseworks) ∧
      (mapWithIndex courseworkCardHTML courseworks).length = courseworks.length ∧
      ∀ i (hi : i < courseworks.length)
        (hj : i < (mapWithIndex courseworkCardHTML courseworks).length),
        (mapWithIndex courseworkCardHTML courseworks).get ⟨i, hj⟩
          = courseworkCardHTML i (courseworks.get ⟨i, hi⟩)) ∧
    ((renderPracticalWorks practicalWorks page).practicalsContainer
        = some (mapWithIndex practicalCardHTML practicalWorks) ∧
      (mapWithIndex practicalCardHTML practicalWorks).length
        = practicalWorks.length ∧
      ∀ i (hi : i < practicalWorks.length)
        (hj : i < (mapWithIndex practicalCardHTML practicalWorks).length),
        (mapWithIndex practicalCardHTML practicalWorks).get ⟨i, hj⟩
          = practicalCardHTML i (practicalWorks.get ⟨i, hi⟩)) := by
  obtain ⟨cm, hcm⟩ := Option.isSome_iff_exists.mp hmc
  obtain ⟨ct, hct⟩ := Option.isSome_iff_exists.mp htc
  obtain ⟨cw, hcw⟩ := Option.isSome_iff_exists.mp hwc
  obtain ⟨cp, hcp⟩ := Option.isSome_iff_exists.mp hpc
  refine ⟨⟨?_, length_mapWithIndex _ _, fun i hi hj => get_mapWithIndex _ _ i hi hj⟩,
          ⟨?_, List.length_map _ _, fun i hi hj => get_map_list _ _ i hi hj⟩,
          ⟨?_, length_mapWithIndex _ _, fun i hi hj => get_mapWithIndex _ _ i hi hj⟩,
          ⟨?_, length_mapWithIndex _ _, fun i hi hj => get_mapWithIndex _ _ i hi hj⟩⟩
  · simp [renderEducationModules, hcm, List.length_eq_zero, hm]
  · simp [renderThesis, hct, ht, hfs]
  · simp [renderCourseworks, hcw, List.length_eq_zero, hw]
  · simp [renderPracticalWorks, hcp, List.length_eq_zero, hp]

/-- Witness for C1: a one-module document, a two-feature thesis, one
coursework and one practical work on a page with all containers present. -/
theorem render_children_match_source_witness :
    demoModules ≠ [] ∧ titleTruthy demoThesisDoc.title = true ∧
    (mapWithIndex moduleCardHTML demoModules).length = demoModules.length ∧
    (["Chapter 1", "Chapter 2"].map featureLI).length = 2 :=
  ⟨by decide, by decide,
   (render_children_match_source demoModules demoThesisDoc
      ["Chapter 1", "Chapter 2"] demoWorks demoPracs demoPage
      (by decide) rfl (by decide) rfl rfl (by decide) rfl (by decide) rfl).1.2.1,
   (render_children_match_source demoModules demoThesisDoc
      ["Chapter 1", "Chapter 2"] demoWorks demoPracs demoPage
      (by decide) rfl (by decide) rfl rfl (by decide) rfl (by decide) rfl).2.1.2.1⟩

/-! ## C7 — scroll-offset-to-active-link mapping -/

theorem clearActive_clearActive (links : List NavLink) :
    clearActive (clearActive links) = clearActive links := by
  induction links with
  | nil => rfl
  | cons a as ih => simp [clearActive]

theorem clearActive_setActiveFirst (id : String) :
    ∀ links : List NavLink,
      clearActive (setActiveFirst id links) = clearActive links := by
  intro links
  induction links with
  | nil => rfl
  | cons a as ih =>
    by_cases h : a.href = id
    · simp [setActiveFirst, h, clearActive]
    · simp [setActiveFirst, h, clearActive] at ih ⊢; exact ih

theorem mem_clearActive_not_active (links : List NavLink) :
    ∀ l ∈ clearActive links, l.active = false := by
  intro l hl
  simp [clearActive] at hl
  obtain ⟨a, _, rfl⟩ := hl
  rfl

theorem activeCount_clearActive (links : List NavLink) :
    activeCount (clearActive links) = 0 := by
  rw [activeCount, List.length_eq_zero, List.filter_eq_nil_iff]
  intro l hl
  simp [mem_clearActive_not_active links l hl]

/-- Closed form of `updateActiveNavLink`: the last matching section (if any)
clears everything and marks the first link with its id; with no match the
links are untouched. -/
theorem updateActiveNavLink_closed_form (sections : List PageSection)
    (scrollY : Int) (links : List NavLink) :
    updateActiveNavLink sections scrollY links =
      match lastMatch sections scrollY with
      | none => links
      | some s => setActiveFirst s.id (clearActive links) := by
  induction sections using List.reverseRecOn with
  | nil => rfl
  | append_singleton xs x ih =>
    have hfold : updateActiveNavLink (xs ++ [x]) scrollY links
        = (if sectionMatches scrollY x then
            setActiveFirst x.id (clearActive (updateActiveNavLink xs scrollY links))
          else updateActiveNavLink xs scrollY links) := by
      simp [updateActiveNavLink, List.foldl_append]
    by_cases hx : sectionMatches scrollY x
    · have hlast : lastMatch (xs ++ [x]) scrollY = some x := by
        simp [lastMatch, List.filter_append, hx]
      have hclear : clearActive (updateActiveNavLink xs scrollY links)
          = clearActive links := by
        rw [ih]
        cases lastMatch xs scrollY with
        | none => rfl
        | some s => rw [clearActive_setActiveFirst, clearActive_clearActive]
      rw [hfold, if_pos hx, hlast, hclear]
    · have hlast : lastMatch (xs ++ [x]) scrollY = lastMatch xs scrollY := by
        simp [lastMatch, List.filter_append, hx]
      rw [hfold, if_neg hx, hlast, ih]

theorem setActiveFirst_clearActive_spec (id : String) :
    ∀ links : List NavLink, (∃ l ∈ links, l.href = id) →
      activeCount (setActiveFirst id (clearActive links)) = 1 ∧
      ∀ l ∈ setActiveFirst id (clearActive links), l.active = true → l.href = id := by
  intro links
  induction links with
  | nil => rintro ⟨l, hl, _⟩; exact absurd hl (List.not_mem_nil l)
  | cons a as ih =>
    intro hex
    by_cases h : a.href = id
    · constructor
      · simp [clearActive, setActiveFirst, h, activeCount]
      · intro l hl hact
        rcases (by simpa [clearActive, setActiveFirst, h] using hl :
            l = { a with active := true } ∨ l ∈ clearActive as) with hcase | hcase
        · subst hcase; exact h
        · exact absurd hact (by simp [mem_clearActive_not_active as l hcase])
    · have hex' : ∃ l ∈ as, l.href = id := by
        rcases hex with ⟨l, hl, hid⟩
        rcases List.mem_cons.mp hl with rfl | hmem
        · exact absurd hid h
        · exact ⟨l, hmem, hid⟩
      obtain ⟨hcount, hall⟩ := ih hex'
      constructor
      · simp [clearActive, setActiveFirst, h, activeCount] at hcount ⊢
        simpa [activeCount, clearActive] using hcount
      · intro l hl hact
        rcases (by simpa [clearActive, setActiveFirst, h] using hl :
            l = { a with active := false } ∨
              l ∈ setActiveFirst id (clearActive as)) with hcase | hcase
        · subst hcase; exact absurd hact (by simp)
        · exact hall l hcase hact

/-- Counterexample to C7 as stated: one section with adjusted top `0` and
height `50`, one matching link, scroll offset `0`.  The offset lies in the
spec band `[0, 50)` — the only band — yet `updateActiveNavLink` changes
nothing (the code requires `scrollY > top` strictly) and zero links carry the
active mark, not exactly one. -/
theorem updateActiveNavLink_boundary_cex :
    specBandMem 0 ⟨"about", 100, 50⟩ = true ∧
    updateActiveNavLink [⟨"about", 100, 50⟩] 0 [⟨"about", false⟩]
      = [⟨"about", false⟩] ∧
    activeCount (updateActiveNavLink [⟨"about", 100, 50⟩] 0 [⟨"about", false⟩])
      = 0 := by decide

/-- C7 (amended): with the bands the code actually tests —
`(offsetTop - 100, offsetTop - 100 + offsetHeight]`, strict at the top edge —
whenever some band contains the scroll offset and the page has a link for the
last matching section, exactly one navigation link carries the active mark
after `updateActiveNavLink` runs, namely that section's link (for pairwise
disjoint bands the last matching section is the unique one whose band contains
the offset); at an offset equal to a band's lower endpoint the function
performs no update at all. -/
theorem updateActiveNavLink_last_match_wins (sections : List PageSection)
    (scrollY : Int) (links : List NavLink) (s : PageSection)
    (hlast : lastMatch sections scrollY = some s)
    (hlink : ∃ l ∈ links, l.href = s.id) :
    activeCount (updateActiveNavLink sections scrollY links) = 1 ∧
    ∀ l ∈ updateActiveNavLink sections scrollY links,
      l.active = true → l.href = s.id := by
  rw [updateActiveNavLink_closed_form, hlast]
  exact setActiveFirst_clearActive_spec s.id links hlink

/-- Witness for C7 (amended): two sections, offset 10 inside the first band
only; the previously active `about` link is cleared and exactly the `home`
link ends active. -/
theorem updateActiveNavLink_last_match_wins_witness :
    lastMatch [(⟨"home", 100, 50⟩ : PageSection), ⟨"about", 200, 50⟩] 10
      = some ⟨"home", 100, 50⟩ ∧
    activeCount (updateActiveNavLink
      [(⟨"home", 100, 50⟩ : PageSection), ⟨"about", 200, 50⟩] 10
      [⟨"home", false⟩, ⟨"about", true⟩]) = 1 :=
  ⟨by decide,
   (updateActiveNavLink_last_match_wins
      [⟨"home", 100, 50⟩, ⟨"about", 200, 50⟩] 10
      [⟨"home", false⟩, ⟨"about", true⟩] ⟨"home", 100, 50⟩
      (by decide) (by decide)).1⟩

/-! ## C3 — a parse failure aborts all later sources -/

theorem renderThesis_total (t : Thesis) (h : thesisRenders t) (page : Page) :
    ∃ q, renderThesis t page = some q := by
  cases hc : page.thesisContainer with
  | none => exact ⟨page, by simp [renderThesis, hc]⟩
  | some c =>
    by_cases ht : titleTruthy t.title = true
    · cases hf : t.keyFeatures with
      | none => exact absurd (h ht) (by simp [hf])
      | some fs =>
        exact ⟨{ page with thesisContainer := some [thesisCardHTML t fs] },
          by simp [renderThesis, hc, ht, hf]⟩
    · have ht' : titleTruthy t.title = false := by
        revert ht; cases titleTruthy t.title <;> simp
      exact ⟨page, by simp [renderThesis, hc, ht']⟩

/-- C3: in `loadAllData`, if parsing the body of source `k` throws while no
earlier source threw, then every later source `j` in the fixed order
(0 = education modules, 1 = thesis, 2 = courseworks, 3 = practical works) is
neither fetched, nor stored (its slot keeps the empty default), nor rendered. -/
theorem loadAllData_parse_error_aborts_later (env : FetchEnv) (page : Page)
    (k j : Nat) (hparse : parseErrorAt env k = true)
    (hearlier : ∀ i, i < k → throwsAt env i = false)
    (hkj : k < j) (hj : j < 4) :
    fetchedAt (loadAllData env page) j = false ∧
    slotDefaultAt (loadAllData env page) j ∧
    renderedAt (loadAllData env page) j = false := by
  obtain ⟨rm, rt, rc, rp⟩ := env
  have hk : k < 3 := by omega
  interval_cases k
  · simp only [parseErrorAt] at hparse
    cases rm <;> simp [FetchResult.isParseError] at hparse
    interval_cases j <;> exact ⟨rfl, rfl, rfl⟩
  · have h0 := hearlier 0 (by omega)
    simp only [throwsAt] at h0
    simp only [parseErrorAt] at hparse
    cases rt <;> simp [FetchResult.isParseError] at hparse
    cases rm <;> simp [FetchResult.raises] at h0
    · interval_cases j <;> exact ⟨rfl, rfl, rfl⟩
    · interval_cases j <;> exact ⟨rfl, rfl, rfl⟩
  · have h0 := hearlier 0 (by omega)
    have h1 := hearlier 1 (by omega)
    simp only [throwsAt] at h0 h1
    simp only [parseErrorAt] at hparse
    cases rc <;> simp [FetchResult.isParseError] at hparse
    cases rm <;> simp [FetchResult.raises] at h0
    · cases rt <;> simp [FetchResult.raises] at h1
      · interval_cases j <;> exact ⟨rfl, rfl, rfl⟩
      · rename_i t
        cases hr : renderThesis t page with
        | none =>
          interval_cases j <;>
            simp [loadAllData, loadModulesStep, loadThesisStep,
              loadCourseworksStep, loadPracticalStep, initTrace, hr,
              fetchedAt, slotDefaultAt, renderedAt]
        | some p =>
          interval_cases j <;>
            simp [loadAllData, loadModulesStep, loadThesisStep,
              loadCourseworksStep, loadPracticalStep, initTrace, hr,
              fetchedAt, slotDefaultAt, renderedAt]
    · rename_i d
      cases rt <;> simp [FetchResult.raises] at h1
      · interval_cases j <;> exact ⟨rfl, rfl, rfl⟩
      · rename_i t
        cases hr : renderThesis t (renderEducationModules d page) with
        | none =>
          interval_cases j <;>
            simp [loadAllData, loadModulesStep, loadThesisStep,
              loadCourseworksStep, loadPracticalStep, initTrace, hr,
              fetchedAt, slotDefaultAt, renderedAt]
        | some p =>
          interval_cases j <;>
            simp [loadAllData, loadModulesStep, loadThesisStep,
              loadCourseworksStep, loadPracticalStep, initTrace, hr,
              fetchedAt, slotDefaultAt, renderedAt]

/-- Witness for C3: a parse failure on the very first source (education
modules) leaves the thesis source unfetched. -/
theorem loadAllData_parse_error_aborts_later_witness :
    parseErrorAt ⟨FetchResult.parseError, FetchResult.httpNotOk,
      FetchResult.httpNotOk, FetchResult.httpNotOk⟩ 0 = true ∧
    fetchedAt (loadAllData ⟨FetchResult.parseError, FetchResult.httpNotOk,
      FetchResult.httpNotOk, FetchResult.httpNotOk⟩ demoPage) 1 = false :=
  ⟨by decide,
   (loadAllData_parse_error_aborts_later
      ⟨FetchResult.parseError, FetchResult.httpNotOk, FetchResult.httpNotOk,
        FetchResult.httpNotOk⟩ demoPage 0 1 (by decide)
      (fun i hi => absurd hi (Nat.not_lt_zero i)) (by omega) (by omega)).1⟩

/-! ## C4 — failure isolation between the four sources -/

/-- Counterexample to C4 as stated: when the transport fails on the first
source (education modules), `await fetch` rejects inside the single `try`, so
the other three sources do **not** complete — the thesis source is never
fetched, its slot keeps the empty default and its render function is never
invoked (likewise sources 2 and 3), contradicting the claim that a transport
failure is skipped silently with the other three loads still completing. -/
theorem loadAllData_transport_error_not_isolated :
    (⟨FetchResult.transportError, FetchResult.ok demoThesisDoc,
        FetchResult.ok demoWorks, FetchResult.ok demoPracs⟩ :
      FetchEnv).modulesResponse = FetchResult.transportError ∧
    fetchedAt (loadAllData ⟨FetchResult.transportError,
      FetchResult.ok demoThesisDoc, FetchResult.ok demoWorks,
      FetchResult.ok demoPracs⟩ demoPage) 1 = false ∧
    (loadAllData ⟨FetchResult.transportError, FetchResult.ok demoThesisDoc,
      FetchResult.ok demoWorks, FetchResult.ok demoPracs⟩
        demoPage).thesisData = emptyThesis ∧
    renderedAt (loadAllData ⟨FetchResult.transportError,
      FetchResult.ok demoThesisDoc, FetchResult.ok demoWorks,
      FetchResult.ok demoPracs⟩ demoPage) 1 = false ∧
    fetchedAt (loadAllData ⟨FetchResult.transportError,
      FetchResult.ok demoThesisDoc, FetchResult.ok demoWorks,
      FetchResult.ok demoPracs⟩ demoPage) 2 = false ∧
    fetchedAt (loadAllData ⟨FetchResult.transportError,
      FetchResult.ok demoThesisDoc, FetchResult.ok demoWorks,
      FetchResult.ok demoPracs⟩ demoPage) 3 = false := by
  decide

/-- C4 (amended): if source `k`'s fetch resolves with a non-success status,
that source is skipped silently — its slot keeps the empty default and its
render function is not invoked — and, provided the other three sources parse
successfully (and the thesis payload renders without throwing), their loads
still complete: each is fetched, rendered and stored.  (A transport failure,
by contrast, throws and aborts all later sources, see the counterexample.) -/
theorem loadAllData_httpNotOk_isolated (env : FetchEnv) (page : Page) (k : Nat)
    (hk : k < 4) (hskip : httpNotOkAt env k = true)
    (hok : ∀ j, j < 4 → j ≠ k → okAt env j = true)
    (hthesis : ∀ t, env.thesisResponse = FetchResult.ok t → thesisRenders t) :
    (fetchedAt (loadAllData env page) k = true ∧
     slotDefaultAt (loadAllData env page) k ∧
     renderedAt (loadAllData env page) k = false) ∧
    ∀ j, j < 4 → j ≠ k →
      fetchedAt (loadAllData env page) j = true ∧
      renderedAt (loadAllData env page) j = true ∧
      storedAt env (loadAllData env page) j := by
  obtain ⟨rm, rt, rc, rp⟩ := env
  interval_cases k
  · simp only [httpNotOkAt] at hskip
    cases rm <;> simp [FetchResult.isHttpNotOk] at hskip
    have h1 := hok 1 (by omega) (by omega)
    have h2 := hok 2 (by omega) (by omega)
    have h3 := hok 3 (by omega) (by omega)
    simp only [okAt] at h1 h2 h3
    cases rt <;> simp [FetchResult.isOk] at h1
    rename_i t
    cases rc <;> simp [FetchResult.isOk] at h2
    rename_i c
    cases rp <;> simp [FetchResult.isOk] at h3
    rename_i p
    obtain ⟨q, hq⟩ := renderThesis_total t (hthesis t rfl) page
    constructor
    · refine ⟨?_, ?_, ?_⟩ <;>
        simp [loadAllData, loadModulesStep, loadThesisStep, loadCourseworksStep,
          loadPracticalStep, initTrace, hq, fetchedAt, slotDefaultAt, renderedAt]
    · intro j hj hjk
      interval_cases j
      · exact absurd rfl hjk
      all_goals
        refine ⟨?_, ?_, ?_⟩ <;>
          simp [loadAllData, loadModulesStep, loadThesisStep, loadCourseworksStep,
            loadPracticalStep, initTrace, hq, fetchedAt, renderedAt, storedAt]
  · simp only [httpNotOkAt] at hskip
    cases rt <;> simp [FetchResult.isHttpNotOk] at hskip
    have h0 := hok 0 (by omega) (by omega)
    have h2 := hok 2 (by omega) (by omega)
    have h3 := hok 3 (by omega) (by omega)
    simp only [okAt] at h0 h2 h3
    cases rm <;> simp [FetchResult.isOk] at h0
    rename_i d
    cases rc <;> simp [FetchResult.isOk] at h2
    rename_i c
    cases rp <;> simp [FetchResult.isOk] at h3
    rename_i p
    constructor
    · refine ⟨?_, ?_, ?_⟩ <;>
        simp [loadAllData, loadModulesStep, loadThesisStep, loadCourseworksStep,
          loadPracticalStep, initTrace, fetchedAt, slotDefaultAt, renderedAt]
    · intro j hj hjk
      interval_cases j
      · refine ⟨?_, ?_, ?_⟩ <;>
          simp [loadAllData, loadModulesStep, loadThesisStep, loadCourseworksStep,
            loadPracticalStep, initTrace, fetchedAt, renderedAt, storedAt]
      · exact absurd rfl hjk
      all_goals
        refine ⟨?_, ?_, ?_⟩ <;>
          simp [loadAllData, loadModulesStep, loadThesisStep, loadCourseworksStep,
            loadPracticalStep, initTrace, fetchedAt, renderedAt, storedAt]
  · simp only [httpNotOkAt] at hskip
    cases rc <;> simp [FetchResult.isHttpNotOk] at hskip
    have h0 := hok 0 (by omega) (by omega)
    have h1 := hok 1 (by omega) (by omega)
    have h3 := hok 3 (by omega) (by omega)
    simp only [okAt] at h0 h1 h3
    cases rm <;> simp [FetchResult.isOk] at h0
    rename_i d
    cases rt <;> simp [FetchResult.isOk] at h1
    rename_i t
    cases rp <;> simp [FetchResult.isOk] at h3
    rename_i p
    obtain ⟨q, hq⟩ :=
      renderThesis_total t (hthesis t rfl) (renderEducationModules d page)
    constructor
    · refine ⟨?_, ?_, ?_⟩ <;>
        simp [loadAllData, loadModulesStep, loadThesisStep, loadCourseworksStep,
          loadPracticalStep, initTrace, hq, fetchedAt, slotDefaultAt, renderedAt]
    · intro j hj hjk
      interval_cases j
      · refine ⟨?_, ?_, ?_⟩ <;>
          simp [loadAllData, loadModulesStep, loadThesisStep, loadCourseworksStep,
            loadPracticalStep, initTrace, hq, fetchedAt, renderedAt, storedAt]
      · refine ⟨?_, ?_, ?_⟩ <;>
          simp [loadAllData, loadModulesStep, loadThesisStep, loadCourseworksStep,
            loadPracticalStep, initTrace, hq, fetchedAt, renderedAt, storedAt]
      · exact absurd rfl hjk
      · refine ⟨?_, ?_, ?_⟩ <;>
          simp [loadAllData, loadModulesStep, loadThesisStep, loadCourseworksStep,
            loadPracticalStep, initTrace, hq, fetchedAt, renderedAt, storedAt]
  · simp only [httpNotOkAt] at hskip
    cases rp <;> simp [FetchResult.isHttpNotOk] at hskip
    have h0 := hok 0 (by omega) (by omega)
    have h1 := hok 1 (by omega) (by omega)
    have h2 := hok 2 (by omega) (by omega)
    simp only [okAt] at h0 h1 h2
    cases rm <;> simp [FetchResult.isOk] at h0
    rename_i d
    cases rt <;> simp [FetchResult.isOk] at h1
    rename_i t
    cases rc <;> simp [FetchResult.isOk] at h2
    rename_i c
    obtain ⟨q, hq⟩ :=
      renderThesis_total t (hthesis t rfl) (renderEducationModules d page)
    constructor
    · refine ⟨?_, ?_, ?_⟩ <;>
        simp [loadAllData, loadModulesStep, loadThesisStep, loadCourseworksStep,
          loadPracticalStep, initTrace, hq, fetchedAt, slotDefaultAt, renderedAt]
    · intro j hj hjk
      interval_cases j
      · refine ⟨?_, ?_, ?_⟩ <;>
          simp [loadAllData, loadModulesStep, loadThesisStep, loadCourseworksStep,
            loadPracticalStep, initTrace, hq, fetchedAt, renderedAt, storedAt]
      · refine ⟨?_, ?_, ?_⟩ <;>
          simp [loadAllData, loadModulesStep, loadThesisStep, loadCourseworksStep,
            loadPracticalStep, initTrace, hq, fetchedAt, renderedAt, storedAt]
      · refine ⟨?_, ?_, ?_⟩ <;>
          simp [loadAllData, loadModulesStep, loadThesisStep, loadCourseworksStep,
            loadPracticalStep, initTrace, hq, fetchedAt, renderedAt, storedAt]
      · exact absurd rfl hjk

/-- Witness for C4 (amended): a 404 on the education-modules source alone —
the modules slot stays at its default and its render is skipped, while the
thesis source is still fetched and rendered. -/
theorem loadAllData_httpNotOk_isolated_witness :
    httpNotOkAt ⟨FetchResult.httpNotOk, FetchResult.ok demoThesisDoc,
      FetchResult.ok demoWorks, FetchResult.ok demoPracs⟩ 0 = true ∧
    fetchedAt (loadAllData ⟨FetchResult.httpNotOk, FetchResult.ok demoThesisDoc,
      FetchResult.ok demoWorks, FetchResult.ok demoPracs⟩ demoPage) 0 = true ∧
    renderedAt (loadAllData ⟨FetchResult.httpNotOk, FetchResult.ok demoThesisDoc,
      FetchResult.ok demoWorks, FetchResult.ok demoPracs⟩ demoPage) 1 = true :=
  ⟨by decide,
   (loadAllData_httpNotOk_isolated
      ⟨FetchResult.httpNotOk, FetchResult.ok demoThesisDoc,
        FetchResult.ok demoWorks, FetchResult.ok demoPracs⟩ demoPage 0
      (by omega) (by decide) (by decide)
      (by intro t ht
          simp only at ht
          injection ht with h
          subst h
          intro _
          rfl)).1.1,
   ((loadAllData_httpNotOk_isolated
      ⟨FetchResult.httpNotOk, FetchResult.ok demoThesisDoc,
        FetchResult.ok demoWorks, FetchResult.ok demoPracs⟩ demoPage 0
      (by omega) (by decide) (by decide)
      (by intro t ht
          simp only at ht
          injection ht with h
          subst h
          intro _
          rfl)).2 1 (by omega) (by omega)).2.1⟩

end Portfolio
